import Mathlib

/-!
Verification development for the HDFC-Stock forecasting pipeline.

The definitions below are a shallow embedding of the Python source under
`backend/`: timestamps are normalized calendar dates modelled as `Nat`
(the string dates `YYYY-MM-DD` compare lexicographically exactly as their
day numbers compare), prices and feature values are `ℚ`, a pandas `NaN`
cell is `Option.none`, and a dataframe is a list of rows (or of parallel
columns).  Numeric square roots (`np.std`, rolling `std`) are embedded by
`Rat.sqrt`, which agrees with the float computation on perfect squares;
no theorem below depends on the rounding of a square root.
-/

namespace HDFCStock

/-! ## Basic column operations (pandas rolling / shift / pct_change) -/

/-- Arithmetic mean of a list of rationals (0 on the empty list, which never
occurs in a full rolling window). -/
def nMean (xs : List ℚ) : ℚ := xs.sum / xs.length

/-- The rolling window of width `w` ending at position `i`. -/
def windowSlice (w i : Nat) (xs : List ℚ) : List ℚ := (xs.drop (i + 1 - w)).take w

/-- Population variance when `ddof = 0`, sample variance when `ddof = 1`
(pandas `std` default), of a list of rationals. -/
def varWith (ddof : Nat) (xs : List ℚ) : ℚ :=
  (xs.map (fun x => (x - nMean xs) ^ 2)).sum / ((xs.length - ddof : Nat) : ℚ)

/-- Embeds `Series.rolling(window=w).mean()` with the default `min_periods = w`:
defined from position `w - 1` on, `NaN` before. -/
def rollingMean (w : Nat) (xs : List ℚ) : List (Option ℚ) :=
  (List.range xs.length).map (fun i =>
    if w ≤ i + 1 then some (nMean (windowSlice w i xs)) else none)

/-- Embeds `Series.rolling(window=w).std(ddof)` (square root via `Rat.sqrt`). -/
def rollingStd (w ddof : Nat) (xs : List ℚ) : List (Option ℚ) :=
  (List.range xs.length).map (fun i =>
    if w ≤ i + 1 then some (Rat.sqrt (varWith ddof (windowSlice w i xs))) else none)

/-- Embeds `Series.pct_change(p)`: `NaN` for the first `p` positions.  (pandas
yields a non-finite value on a zero base price; prices are positive in
every input considered here, and rational division by zero is 0.) -/
def pctChange (p : Nat) (xs : List ℚ) : List (Option ℚ) :=
  (List.range xs.length).map (fun i =>
    if p ≤ i then some ((xs.getD i 0 - xs.getD (i - p) 0) / xs.getD (i - p) 0) else none)

/-- Sequence a list of optional values: `some` exactly when every entry is. -/
def seqOption : List (Option ℚ) → Option (List ℚ)
  | [] => some []
  | none :: _ => none
  | some x :: xs => (seqOption xs).map (fun l => x :: l)

/-- Rolling mean over a column that may contain `NaN`: with
`min_periods = w` the result is defined only when the whole window is. -/
def rollingMeanO (w : Nat) (xs : List (Option ℚ)) : List (Option ℚ) :=
  (List.range xs.length).map (fun i =>
    if w ≤ i + 1 then (seqOption ((xs.drop (i + 1 - w)).take w)).map nMean else none)

/-- Rolling standard deviation over a column that may contain `NaN`. -/
def rollingStdO (w ddof : Nat) (xs : List (Option ℚ)) : List (Option ℚ) :=
  (List.range xs.length).map (fun i =>
    if w ≤ i + 1 then
      (seqOption ((xs.drop (i + 1 - w)).take w)).map (fun l => Rat.sqrt (varWith ddof l))
    else none)

/-- Pointwise combination of two optional columns (`NaN` propagates). -/
def zipWithO (f : ℚ → ℚ → ℚ) (a b : List (Option ℚ)) : List (Option ℚ) :=
  (a.zip b).map (fun p => p.1.bind (fun x => p.2.map (fun y => f x y)))

/-- Tail of the exponentially-weighted recursion `y = (1-a)·prev + a·x`
(`ewm(..., adjust=False)`). -/
def ewmStep (a prev : ℚ) : List ℚ → List ℚ
  | [] => []
  | x :: xs => ((1 - a) * prev + a * x) :: ewmStep a ((1 - a) * prev + a * x) xs

/-- Embeds `Series.ewm(alpha=a, adjust=False).mean()` over a gap-free series. -/
def ewmAdjFalse (a : ℚ) : List ℚ → List ℚ
  | [] => []
  | x :: xs => x :: ewmStep a x xs

/-- Consecutive differences `Series.diff(1)` (dropping the leading `NaN`,
so position `i` of the result is the change into position `i + 1`). -/
def diffsList (xs : List ℚ) : List ℚ :=
  (xs.zip (xs.drop 1)).map (fun p => p.2 - p.1)

/-! ## Indicator Engine

The indicator implementations live in the third-party `ta` library, not in
the repository's own sources; §4.1 of the specification fixes their
definitions (SMA/EMA over window W, 14-period Wilder RSI, MACD =
EMA(12) − EMA(26) with EMA(9) signal, Bollinger = SMA(20) ± 2·std(20),
Wilder-smoothed ATR(14)).  The embeddings below follow those definitions;
no claim in this development depends on indicator numerics, only on which
positions are defined. -/

/-- Exponential moving average over span `w`, undefined for the first
`w - 1` positions (`min_periods = w`). -/
def emaIndicator (w : Nat) (xs : List ℚ) : List (Option ℚ) :=
  let raw := ewmAdjFalse (2 / ((w : ℚ) + 1)) xs
  (List.range xs.length).map (fun i => if w ≤ i + 1 then raw.get? i else none)

/-- Modelled from the spec: 14-period Wilder-smoothed RSI (`ta.momentum.rsi`
is outside the repository).  Gains/losses are smoothed with `alpha = 1/w`;
the first `w` positions are undefined. -/
def rsiIndicator (w : Nat) (xs : List ℚ) : List (Option ℚ) :=
  let d := diffsList xs
  let ag := ewmAdjFalse (1 / (w : ℚ)) (d.map (fun x => max x 0))
  let al := ewmAdjFalse (1 / (w : ℚ)) (d.map (fun x => max (-x) 0))
  (List.range xs.length).map (fun i =>
    if w ≤ i then
      match ag.get? (i - 1), al.get? (i - 1) with
      | some g, some l => some (if l = 0 then 100 else 100 - 100 / (1 + g / l))
      | _, _ => none
    else none)

/-- MACD line: `EMA(12) − EMA(26)`. -/
def macdLine (xs : List ℚ) : List (Option ℚ) :=
  zipWithO (fun a b => a - b) (emaIndicator 12 xs) (emaIndicator 26 xs)

/-- MACD signal: `EMA(9)` of the MACD line, run over the defined suffix of
the line and undefined until nine line values have accumulated. -/
def macdSignalLine (xs : List ℚ) : List (Option ℚ) :=
  let m := macdLine xs
  let definedVals := m.filterMap id
  let lead := m.length - definedVals.length
  let sig := ewmAdjFalse (2 / 10) definedVals
  (List.range m.length).map (fun i =>
    if lead + 9 ≤ i + 1 then sig.get? (i - lead) else none)

/-- MACD histogram: line minus signal. -/
def macdHistogramLine (xs : List ℚ) : List (Option ℚ) :=
  zipWithO (fun a b => a - b) (macdLine xs) (macdSignalLine xs)

/-- Bollinger middle band: `SMA(20)`. -/
def bollingerMiddleLine (xs : List ℚ) : List (Option ℚ) := rollingMean 20 xs

/-- Bollinger upper band: `SMA(20) + 2·std(20)` (population std). -/
def bollingerUpperLine (xs : List ℚ) : List (Option ℚ) :=
  zipWithO (fun m s => m + 2 * s) (rollingMean 20 xs) (rollingStd 20 0 xs)

/-- Bollinger lower band: `SMA(20) − 2·std(20)`. -/
def bollingerLowerLine (xs : List ℚ) : List (Option ℚ) :=
  zipWithO (fun m s => m - 2 * s) (rollingMean 20 xs) (rollingStd 20 0 xs)

/-- True-range series: position 0 is `high − low`, later positions
`max(high − low, |high − prev close|, |low − prev close|)`. -/
def trueRangeList (highs lows closes : List ℚ) : List ℚ :=
  (List.range highs.length).map (fun i =>
    let h := highs.getD i 0
    let l := lows.getD i 0
    if i = 0 then h - l
    else
      let pc := closes.getD (i - 1) 0
      max (h - l) (max |h - pc| |l - pc|))

/-- Modelled from the spec: Wilder-smoothed Average True Range
(`ta.volatility.average_true_range` is outside the repository), undefined
for the first `w - 1` positions. -/
def atrIndicator (w : Nat) (highs lows closes : List ℚ) : List (Option ℚ) :=
  let sm := ewmAdjFalse (1 / (w : ℚ)) (trueRangeList highs lows closes)
  (List.range highs.length).map (fun i => if w ≤ i + 1 then sm.get? i else none)

/-- On-balance volume: cumulative sum of `volume` signed negatively exactly
when the close fell versus the previous close. -/
def obvList (closes vols : List ℚ) : List ℚ :=
  let signed := (List.range closes.length).map (fun i =>
    if 1 ≤ i ∧ closes.getD i 0 < closes.getD (i - 1) 0 then -vols.getD i 0
    else vols.getD i 0)
  (List.range signed.length).map (fun i => ((signed.take (i + 1)).sum))

/-! ## Forecaster: direction classification and confidence intervals -/

/-- Direction classification from `PredictionService.generate_predictions`
(lines 109–121): a ±0.1% dead-band around the latest actual price with
fixed heuristic probabilities. -/
def classifyDirection (predictedPrice currentPrice : ℚ) : String × ℚ :=
  if predictedPrice > currentPrice * (1001 / 1000) then ("UP", 13 / 20)
  else if predictedPrice < currentPrice * (999 / 1000) then ("DOWN", 13 / 20)
  else ("NEUTRAL", 1 / 2)

/-- Population variance of a prediction batch (`np.std` uses `ddof = 0`). -/
def popVariance (xs : List ℚ) : ℚ :=
  (xs.map (fun x => (x - nMean xs) ^ 2)).sum / (xs.length : ℚ)

/-- Embeds `np.std` of a prediction batch (square root via `Rat.sqrt`, exact on
perfect squares; no theorem depends on its rounding). -/
def npStd (xs : List ℚ) : ℚ := Rat.sqrt (popVariance xs)

/-- One output row of `AdvancedXGBoostModel.predict`. -/
structure IntervalRow where
  predictedPrice : ℚ
  confidenceLower : ℚ
  confidenceUpper : ℚ
deriving Repr, DecidableEq, Inhabited

/-- Embeds `AdvancedXGBoostModel.predict` (lines 322–346): point predictions with
intervals `p ± z·stdError` where `stdError = np.std(predictions) * 0.1`
and `z = 1.96` is a literal in the source; the `confidence_level`
argument is accepted but never read. -/
def predictWithIntervals (preds : List ℚ) (confidenceLevel : ℚ) : List IntervalRow :=
  let stdError := npStd preds * (1 / 10)
  let z : ℚ := 196 / 100
  preds.map (fun p => ⟨p, p - z * stdError, p + z * stdError⟩)

/-! ## Model Registry metadata -/

/-- A `model_metadata` record as assembled by `save_metadata` (only the
fields the registry claims are about, plus representative metrics). -/
structure ModelMetadata where
  modelName : String
  modelVersion : String
  modelType : String
  trainRmse : ℚ
  trainMae : ℚ
  valRmse : ℚ
  valMae : ℚ
  status : String
  isProduction : Bool
deriving Repr, DecidableEq

/-- Supabase `upsert(..., on_conflict='model_name,model_version')`: replace
every record with the same key, else append. -/
def upsertMetadata (reg : List ModelMetadata) (m : ModelMetadata) : List ModelMetadata :=
  if reg.any (fun e => e.modelName == m.modelName && e.modelVersion == m.modelVersion) then
    reg.map (fun e =>
      if e.modelName == m.modelName && e.modelVersion == m.modelVersion then m else e)
  else reg ++ [m]

/-- The metadata record built by `AdvancedXGBoostModel.save_metadata`
(lines 368–409): `status` and `is_production` are hard-coded literals. -/
def advancedModelMetadata (trainRmse trainMae valRmse valMae : ℚ) : ModelMetadata :=
  { modelName := "advanced_xgboost", modelVersion := "v1.0", modelType := "XGBoost",
    trainRmse := trainRmse, trainMae := trainMae, valRmse := valRmse, valMae := valMae,
    status := "active", isProduction := true }

/-- The metadata record built by `BaselineARIMAModel.save_metadata`
(lines 181–217): `is_production` is the literal `False`. -/
def baselineModelMetadata (trainRmse trainMae valRmse valMae : ℚ) : ModelMetadata :=
  { modelName := "baseline_arima", modelVersion := "v1.0", modelType := "SARIMAX",
    trainRmse := trainRmse, trainMae := trainMae, valRmse := valRmse, valMae := valMae,
    status := "active", isProduction := false }

/-- Persisting the advanced model's metadata at the end of a training run. -/
def saveMetadataAdvanced (reg : List ModelMetadata) (trainRmse trainMae valRmse valMae : ℚ) :
    List ModelMetadata :=
  upsertMetadata reg (advancedModelMetadata trainRmse trainMae valRmse valMae)

/-- Persisting the baseline model's metadata at the end of a training run. -/
def saveMetadataBaseline (reg : List ModelMetadata) (trainRmse trainMae valRmse valMae : ℚ) :
    List ModelMetadata :=
  upsertMetadata reg (baselineModelMetadata trainRmse trainMae valRmse valMae)

/-! ## Prediction service: multi-horizon forecast generation -/

/-- One forecast record as assembled by
`PredictionService.generate_predictions`. -/
structure PredictionRecord where
  symbol : String
  predictionTimestamp : Nat
  targetTimestamp : Nat
  predictedPrice : ℚ
  confidenceLower : ℚ
  confidenceUpper : ℚ
  confidenceLevel : ℚ
  modelName : String
  modelVersion : String
  featureVersion : String
  predictedDirection : Option String
  directionProbability : Option ℚ
deriving Repr, DecidableEq, Inhabited

/-- Embeds `self.model.predict(latest_scaled)` on the single latest scaled row
followed by `.iloc[0]`: the prediction batch is the one-element list. -/
def predictOne (model : List ℚ → ℚ) (latestScaled : List ℚ) : IntervalRow :=
  (predictWithIntervals [model latestScaled] (19 / 20)).headD default

/-- Embeds `PredictionService.generate_predictions` (lines 80–143): one record per
requested horizon day, every iteration feeding the identical scaled latest
feature vector to the deterministic model and refetching the same latest
close; `confidence_level` is recorded as the literal `0.95`.  The clock
and the data store are fixed for the run (`now`, `currentPrice`). -/
def generatePredictions (model : List ℚ → ℚ) (latestScaled : List ℚ)
    (currentPrice : Option ℚ) (now : Nat) (forecastDays : Nat) : List PredictionRecord :=
  (List.range forecastDays).map (fun d =>
    let day := d + 1
    let pr := predictOne model latestScaled
    let dirProb : Option String × Option ℚ :=
      match currentPrice with
      | some c => (some (classifyDirection pr.predictedPrice c).1, some (classifyDirection pr.predictedPrice c).2)
      | none => (none, none)
    { symbol := "HDFCBANK.NS", predictionTimestamp := now,
      targetTimestamp := now + day,
      predictedPrice := pr.predictedPrice,
      confidenceLower := pr.confidenceLower,
      confidenceUpper := pr.confidenceUpper,
      confidenceLevel := 19 / 20,
      modelName := "advanced_xgboost", modelVersion := "v1.0", featureVersion := "v1",
      predictedDirection := dirProb.1, directionProbability := dirProb.2 })

/-! ## Dataset Constructor: `AdvancedXGBoostModel.create_sequences`

Feature rows and the independently fetched price series are joined on the
normalized calendar date (`strftime('%Y-%m-%d')` string equality; the
string order coincides with the order of the day numbers used here).  The
`market_data_raw` table is keyed by `(symbol, timestamp)`, so price dates
are unique and the pandas inner merge is the first-match lookup below. -/

/-- A feature row entering `create_sequences`: its calendar date and its
feature cells in the model's fixed column order (`none` is `NaN`). -/
structure FeatRow where
  date : Nat
  feats : List (Option ℚ)
deriving Repr, DecidableEq

/-- A row of the merged frame: feature cells plus the joined close price. -/
structure JoinedRow where
  date : Nat
  feats : List (Option ℚ)
  close : ℚ
deriving Repr, DecidableEq

/-- The inner merge of feature rows with `(date, close)` price rows on the
normalized date. -/
def innerJoinPrices (fs : List FeatRow) (ps : List (Nat × ℚ)) : List JoinedRow :=
  fs.filterMap (fun f =>
    (ps.find? (fun p => p.1 == f.date)).map (fun p => ⟨f.date, f.feats, p.2⟩))

/-- Date order on merged rows (`merged.sort_values('date_str')`). -/
def dateLe (a b : JoinedRow) : Prop := a.date ≤ b.date

instance : DecidableRel dateLe := fun a b => inferInstanceAs (Decidable (a.date ≤ b.date))

instance : IsTotal JoinedRow dateLe := ⟨fun a b => Nat.le_total a.date b.date⟩

instance : IsTrans JoinedRow dateLe := ⟨fun _ _ _ hab hbc => Nat.le_trans hab hbc⟩

/-- Sorting the merged frame by date. -/
def sortByDate (l : List JoinedRow) : List JoinedRow := List.insertionSort dateLe l

/-- One retained supervised row: fully-defined features, the shifted
target close and the date it was drawn from. -/
structure TrainRow where
  featDate : Nat
  feats : List ℚ
  target : ℚ
  targetDate : Nat
deriving Repr, DecidableEq

/-- Target shift and `dropna`: position `i` of the sorted merged frame is
paired with the close at position `i + horizon`
(`merged['close'].shift(-forecast_horizon)`), and a row survives only if
every feature cell and the target are defined — the trailing `horizon`
rows have no target and are always dropped. -/
def buildRows (ms : List JoinedRow) (horizon : Nat) : List TrainRow :=
  (List.range ms.length).filterMap (fun i =>
    (ms.get? i).bind (fun r =>
      (ms.get? (i + horizon)).bind (fun r2 =>
        (seqOption r.feats).map (fun fv => ⟨r.date, fv, r2.close, r2.date⟩))))

/-- The diagnostics logged when the date join is empty: the min/max date
of the feature side and of the price side. -/
structure AlignmentDiag where
  featMin : Option Nat
  featMax : Option Nat
  priceMin : Option Nat
  priceMax : Option Nat
deriving Repr, DecidableEq

/-- The date ranges reported on an empty join (lines 184–186). -/
def mkAlignmentDiag (fs : List FeatRow) (ps : List (Nat × ℚ)) : AlignmentDiag :=
  { featMin := (fs.map (fun f => f.date)).min?,
    featMax := (fs.map (fun f => f.date)).max?,
    priceMin := (ps.map (fun p => p.1)).min?,
    priceMax := (ps.map (fun p => p.1)).max? }

/-- Embeds `AdvancedXGBoostModel.create_sequences` (lines 125–202): merge on the
normalized date, fail fast with the alignment error and its diagnostic
date ranges when the merge is empty, else sort by date, shift the target
by the horizon and drop incomplete rows. -/
def createSequences (fs : List FeatRow) (ps : List (Nat × ℚ)) (horizon : Nat) :
    Except AlignmentDiag (List TrainRow) :=
  let joined := innerJoinPrices fs ps
  if joined.isEmpty then .error (mkAlignmentDiag fs ps)
  else .ok (buildRows (sortByDate joined) horizon)

/-! ## Feature Engineer (`FeatureEngineer`) -/

/-- A raw price bar (daily granularity; the open price is never read by
the feature pipeline). -/
structure Bar where
  date : Nat
  high : ℚ
  low : ℚ
  close : ℚ
  volume : ℚ
deriving Repr, DecidableEq, Inhabited

/-- A primary row after `calculate_sector_features` (lines 118–160): the
left merge with the sector index on `timestamp` keeps every primary row,
attaching the same-date index close when one exists (`features_store` and
`market_data_raw` are keyed by `(symbol, timestamp)`, so the first match
is the only match) and `NaN` otherwise; relative strength is
`close / close_index`, hence `NaN` exactly where the index close is. -/
structure SectorRow where
  date : Nat
  close : ℚ
  closeIdx : Option ℚ
  relStrengthSector : Option ℚ
deriving Repr, DecidableEq

/-- The sector-index close joined onto one primary bar (`how='left'`). -/
def mkSectorClose (index : List Bar) (b : Bar) : Option ℚ :=
  (index.find? (fun ib => ib.date == b.date)).map (fun ib => ib.close)

/-- One row of the sector merge. -/
def mkSectorRow (index : List Bar) (b : Bar) : SectorRow :=
  { date := b.date, close := b.close, closeIdx := mkSectorClose index b,
    relStrengthSector := (mkSectorClose index b).map (fun c => b.close / c) }

/-- Embeds `FeatureEngineer.calculate_sector_features`, restricted to the join
and the relative-strength column the claims are about. -/
def calculateSectorFeatures (primary index : List Bar) : List SectorRow :=
  primary.map (mkSectorRow index)

/-- Embeds `pct_change` over a column containing `NaN` (joined index/peer closes):
defined only when the cell and its predecessor are. -/
def pctChangeO (xs : List (Option ℚ)) : List (Option ℚ) :=
  (List.range xs.length).map (fun i =>
    if 1 ≤ i then
      (xs.getD (i - 1) none).bind (fun prev => (xs.getD i none).map (fun x => (x - prev) / prev))
    else none)

/-- Rolling 20-period correlation of two optional columns: defined only on
a full window of defined pairs with non-degenerate variances. -/
def rollingCorrO (w : Nat) (a b : List (Option ℚ)) : List (Option ℚ) :=
  (List.range (min a.length b.length)).map (fun i =>
    if w ≤ i + 1 then
      match seqOption ((a.drop (i + 1 - w)).take w), seqOption ((b.drop (i + 1 - w)).take w) with
      | some xs, some ys =>
        let cov := ((xs.zip ys).map (fun p => (p.1 - nMean xs) * (p.2 - nMean ys))).sum
        let den := Rat.sqrt ((xs.map (fun x => (x - nMean xs) ^ 2)).sum) *
                   Rat.sqrt ((ys.map (fun y => (y - nMean ys) ^ 2)).sum)
        if den = 0 then none else some (cov / den)
      | _, _ => none
    else none)

/-- Cross-sectional mean of the peer-return columns at each position
(pandas `mean(axis=1)` skips `NaN`; all peers `NaN` gives `NaN`). -/
def rowMeanO (cols : List (List (Option ℚ))) (n : Nat) : List (Option ℚ) :=
  (List.range n).map (fun i =>
    let vals := cols.filterMap (fun c => c.getD i none)
    if vals.isEmpty then none else some (nMean vals))

/-- Comparison on optional cells: false whenever either side is `NaN`,
matching pandas comparisons against `NaN`. -/
def optGtB (a b : Option ℚ) : Bool :=
  match a, b with
  | some x, some y => decide (y < x)
  | _, _ => false

/-- Strictly-less comparison on optional cells. -/
def optLtB (a b : Option ℚ) : Bool := optGtB b a

/-- Embeds `FeatureEngineer.classify_regime` at one row (lines 162–185):
`np.select` takes the first true condition, defaulting to `"ranging"`;
every comparison against an undefined cell is false. -/
def classifyRegime (sma5 sma20 sma50 tstr vol volMean50 : Option ℚ) : String :=
  if optGtB sma5 sma20 && optGtB sma20 sma50 && optGtB tstr (some (2 / 100)) then "trending_up"
  else if optLtB sma5 sma20 && optLtB sma20 sma50 && optGtB tstr (some (2 / 100)) then "trending_down"
  else if optGtB vol (volMean50.map (fun m => m * (3 / 2))) then "high_volatility"
  else "ranging"

/-- One row of the engineered feature frame; `symbol`/`featureVersion` are
filled in by `prepare_features_for_storage`.  A sector column that the
pipeline skipped (empty index series, no peers) is `none` here, matching
a stored `null`. -/
structure FeatureRecord where
  symbol : String
  featureVersion : String
  date : Nat
  sma5 : Option ℚ
  sma20 : Option ℚ
  sma50 : Option ℚ
  ema12 : Option ℚ
  ema26 : Option ℚ
  rsi14 : Option ℚ
  macdVal : Option ℚ
  macdSignalVal : Option ℚ
  macdHistogramVal : Option ℚ
  bollingerUpper : Option ℚ
  bollingerMiddle : Option ℚ
  bollingerLower : Option ℚ
  atr14 : Option ℚ
  obvVal : ℚ
  returns1d : Option ℚ
  returns5d : Option ℚ
  returns20d : Option ℚ
  volatility20d : Option ℚ
  volumeSma20 : Option ℚ
  volumeOverSma : Option ℚ
  corrNiftyBank : Option ℚ
  corrBankingPeers : Option ℚ
  relStrengthSector : Option ℚ
  regimeClassification : String
  trendStrength : Option ℚ
deriving Repr, DecidableEq, Inhabited

/-- The whole column pipeline of `engineer_features` (indicators → price
features → volume features → sector features → regime), one record per
input bar. -/
def pipelineRows (primary index : List Bar) (peers : List (List Bar)) : List FeatureRecord :=
  let cs := primary.map (fun b => b.close)
  let hs := primary.map (fun b => b.high)
  let ls := primary.map (fun b => b.low)
  let vs := primary.map (fun b => b.volume)
  let sma5c := rollingMean 5 cs
  let sma20c := rollingMean 20 cs
  let sma50c := rollingMean 50 cs
  let ema12c := emaIndicator 12 cs
  let ema26c := emaIndicator 26 cs
  let rsic := rsiIndicator 14 cs
  let macdc := macdLine cs
  let macdsc := macdSignalLine cs
  let macdhc := macdHistogramLine cs
  let bupc := bollingerUpperLine cs
  let bmidc := bollingerMiddleLine cs
  let blowc := bollingerLowerLine cs
  let atrc := atrIndicator 14 hs ls cs
  let obvc := obvList cs vs
  let r1c := pctChange 1 cs
  let r5c := pctChange 5 cs
  let r20c := pctChange 20 cs
  let vol20c := rollingStdO 20 1 r1c
  let vsma20c := rollingMean 20 vs
  let vratc := (List.range primary.length).map (fun i =>
    (vsma20c.getD i none).map (fun m => vs.getD i 0 / m))
  let closeIdxc := primary.map (fun b => mkSectorClose index b)
  let relc := primary.map (fun b => (mkSectorRow index b).relStrengthSector)
  let corrIdxc := rollingCorrO 20 r1c (pctChangeO closeIdxc)
  let peerCloseCols := peers.map (fun pdf =>
    pctChangeO (primary.map (fun b => (pdf.find? (fun pb => pb.date == b.date)).map (fun pb => pb.close))))
  let corrPeersc :=
    if peers.isEmpty then (List.range primary.length).map (fun _ => (none : Option ℚ))
    else rollingCorrO 20 r1c (rowMeanO peerCloseCols primary.length)
  let tstrc := zipWithO (fun a b => |a - b| / b) sma5c sma50c
  let volMean50c := rollingMeanO 50 vol20c
  (List.range primary.length).map (fun i =>
    { symbol := "", featureVersion := "",
      date := (primary.getD i default).date,
      sma5 := sma5c.getD i none, sma20 := sma20c.getD i none, sma50 := sma50c.getD i none,
      ema12 := ema12c.getD i none, ema26 := ema26c.getD i none,
      rsi14 := rsic.getD i none,
      macdVal := macdc.getD i none, macdSignalVal := macdsc.getD i none,
      macdHistogramVal := macdhc.getD i none,
      bollingerUpper := bupc.getD i none, bollingerMiddle := bmidc.getD i none,
      bollingerLower := blowc.getD i none,
      atr14 := atrc.getD i none, obvVal := obvc.getD i 0,
      returns1d := r1c.getD i none, returns5d := r5c.getD i none, returns20d := r20c.getD i none,
      volatility20d := vol20c.getD i none,
      volumeSma20 := vsma20c.getD i none, volumeOverSma := vratc.getD i none,
      corrNiftyBank := corrIdxc.getD i none, corrBankingPeers := corrPeersc.getD i none,
      relStrengthSector := relc.getD i none,
      regimeClassification := classifyRegime (sma5c.getD i none) (sma20c.getD i none)
        (sma50c.getD i none) (tstrc.getD i none) (vol20c.getD i none) (volMean50c.getD i none),
      trendStrength := tstrc.getD i none })

/-- Embeds `FeatureEngineer.prepare_features_for_storage` (lines 187–211): stamps
the symbol and feature version on every pipeline row and converts each row
to a record with `NaN` cells becoming `null`
(`df.replace(\x7bnp.nan: None\x7d).to_dict('records')`) — no row is dropped. -/
def prepareFeaturesForStorage (rows : List FeatureRecord) (symbol : String) :
    List FeatureRecord :=
  rows.map (fun r => { r with symbol := symbol, featureVersion := "v1" })

/-- Embeds `FeatureEngineer.engineer_features` (lines 261–316): an empty primary
series aborts with the no-data failure signal before any feature row is
produced (`return False`); otherwise the pipeline runs and the prepared
records are stored. -/
def engineerFeatures (primary index : List Bar) (peers : List (List Bar)) (symbol : String) :
    Bool × List FeatureRecord :=
  if primary.isEmpty then (false, [])
  else (true, prepareFeaturesForStorage (pipelineRows primary index peers) symbol)

/-! ## Regime one-hot encoding (`AdvancedXGBoostModel.prepare_features`) -/

/-- The four regime one-hot columns, all always materialized
(lines 104–121: each initialized to 0, then set to 1 where the stored
classification matches). -/
structure RegimeOneHot where
  regimeHighVolatility : Nat
  regimeRanging : Nat
  regimeTrendingDown : Nat
  regimeTrendingUp : Nat
deriving Repr, DecidableEq

/-- The one-hot encoding of a stored regime classification. -/
def regimeOneHot (c : String) : RegimeOneHot :=
  { regimeHighVolatility := if c == "high_volatility" then 1 else 0,
    regimeRanging := if c == "ranging" then 1 else 0,
    regimeTrendingDown := if c == "trending_down" then 1 else 0,
    regimeTrendingUp := if c == "trending_up" then 1 else 0 }

/-- Sum of the four one-hot cells of a row. -/
def RegimeOneHot.total (r : RegimeOneHot) : Nat :=
  r.regimeHighVolatility + r.regimeRanging + r.regimeTrendingDown + r.regimeTrendingUp

/-! ## Theorems -/

/-- C7: the Forecaster classifies direction by comparing the point
prediction to the latest known actual price with a ±0.1% neutral
dead-band — UP with probability 0.65 above `price × 1.001`, DOWN with
0.65 below `price × 0.999`, NEUTRAL with 0.5 otherwise; in particular a
prediction of 1503.00 against a latest close of 1500.00 yields UP with
probability 0.65. -/
theorem forecaster_direction_deadband :
    (∀ p c : ℚ, p > c * (1001 / 1000) → classifyDirection p c = ("UP", 13 / 20)) ∧
    (∀ p c : ℚ, ¬ p > c * (1001 / 1000) → p < c * (999 / 1000) →
      classifyDirection p c = ("DOWN", 13 / 20)) ∧
    (∀ p c : ℚ, ¬ p > c * (1001 / 1000) → ¬ p < c * (999 / 1000) →
      classifyDirection p c = ("NEUTRAL", 1 / 2)) ∧
    classifyDirection 1503 1500 = ("UP", 13 / 20) := by
  refine ⟨?_, ?_, ?_, by norm_num [classifyDirection]⟩
  · intro p c h
    simp [classifyDirection, h]
  · intro p c h1 h2
    simp [classifyDirection, h1, h2]
  · intro p c h1 h2
    simp [classifyDirection, h1, h2]

/-- Witness for C7 at the spec's concrete example. -/
theorem forecaster_direction_deadband_witness :
    (1503 : ℚ) > 1500 * (1001 / 1000) ∧ classifyDirection 1503 1500 = ("UP", 13 / 20) :=
  ⟨by norm_num, forecaster_direction_deadband.1 1503 1500 (by norm_num)⟩

/-- C4: invoking the Feature Engineer on an empty primary PriceBar series
returns the no-data failure signal together with an empty record list —
no feature row, partially populated or otherwise, is ever emitted. -/
theorem engineerFeatures_empty_primary (index : List Bar) (peers : List (List Bar))
    (symbol : String) :
    engineerFeatures [] index peers symbol = (false, []) := rfl

/-- C3: when the date join of feature rows to prices yields zero rows,
`create_sequences` fails fast with the alignment error, whose diagnostics
are the min and max date of the feature side and of the price side. -/
theorem createSequences_alignment_error (fs : List FeatRow) (ps : List (Nat × ℚ))
    (horizon : Nat) (hempty : innerJoinPrices fs ps = []) :
    ∃ e : AlignmentDiag, createSequences fs ps horizon = .error e ∧
      e.featMin = (fs.map (fun f => f.date)).min? ∧
      e.featMax = (fs.map (fun f => f.date)).max? ∧
      e.priceMin = (ps.map (fun p => p.1)).min? ∧
      e.priceMax = (ps.map (fun p => p.1)).max? := by
  refine ⟨mkAlignmentDiag fs ps, ?_, rfl, rfl, rfl, rfl⟩
  simp [createSequences, hempty]

/-- Witness for C3 on two concrete non-overlapping series. -/
theorem createSequences_alignment_error_witness :
    innerJoinPrices [⟨1, [some 1]⟩] [(2, 10)] = [] ∧
    ∃ e : AlignmentDiag, createSequences [⟨1, [some 1]⟩] [(2, 10)] 1 = .error e ∧
      e.featMin = some 1 ∧ e.featMax = some 1 ∧ e.priceMin = some 2 ∧ e.priceMax = some 2 := by
  refine ⟨by decide, ?_⟩
  simpa using createSequences_alignment_error [⟨1, [some 1]⟩] [(2, 10)] 1 (by decide)

/-- The regime classifier can only ever answer one of the four labels, and
the one-hot encoding of any of them sums to 1. -/
theorem regimeOneHot_total_classify (sma5 sma20 sma50 tstr vol volMean50 : Option ℚ) :
    (regimeOneHot (classifyRegime sma5 sma20 sma50 tstr vol volMean50)).total = 1 := by
  unfold classifyRegime
  split_ifs <;> decide

/-- C2: every feature row produced by the pipeline carries all four regime
one-hot columns and their values sum to exactly 1 — the classifier yields
exactly one of the four labels (defaulting to ranging), and the one-hot
encoding of `prepare_features` activates exactly that column. -/
theorem pipeline_regime_onehot_total (primary index : List Bar) (peers : List (List Bar))
    (symbol : String) :
    ∀ rec ∈ (engineerFeatures primary index peers symbol).2,
      (regimeOneHot rec.regimeClassification).total = 1 := by
  intro rec hrec
  unfold engineerFeatures at hrec
  split at hrec
  · simp at hrec
  · simp only [prepareFeaturesForStorage, pipelineRows, List.mem_map, List.mem_range] at hrec
    obtain ⟨r, ⟨i, _, rfl⟩, rfl⟩ := hrec
    exact regimeOneHot_total_classify _ _ _ _ _ _

/-- The default head of a nonempty list is a member of it. -/
theorem headD_default_mem {α : Type} [Inhabited α] (l : List α) (h : l ≠ []) :
    l.headD default ∈ l := by
  cases l with
  | nil => exact absurd rfl h
  | cons a t => exact List.mem_cons_self a t

/-- Witness for C2 on a concrete one-bar pipeline run. -/
theorem pipeline_regime_onehot_total_witness :
    ((engineerFeatures [⟨0, 101, 99, 100, 1000⟩] [] [] "HDFCBANK.NS").2.headD default) ∈
      (engineerFeatures [⟨0, 101, 99, 100, 1000⟩] [] [] "HDFCBANK.NS").2 ∧
    (regimeOneHot ((engineerFeatures [⟨0, 101, 99, 100, 1000⟩] [] [] "HDFCBANK.NS").2.headD
      default).regimeClassification).total = 1 := by
  have hmem : ((engineerFeatures [⟨0, 101, 99, 100, 1000⟩] [] [] "HDFCBANK.NS").2.headD default) ∈
      (engineerFeatures [⟨0, 101, 99, 100, 1000⟩] [] [] "HDFCBANK.NS").2 := by
    apply headD_default_mem
    intro h
    exact absurd (congrArg List.length h) (by decide)
  exact ⟨hmem, pipeline_regime_onehot_total [⟨0, 101, 99, 100, 1000⟩] [] [] "HDFCBANK.NS" _ hmem⟩

/-- C5 counterexample: a primary row whose timestamp has no match in the
sector-index series is NOT excluded — the left merge retains it, with an
undefined index close and an undefined relative strength. -/
theorem sector_join_keeps_unmatched_row :
    calculateSectorFeatures [⟨1, 101, 99, 100, 1000⟩] [⟨2, 51, 49, 50, 500⟩] =
      [{ date := 1, close := 100, closeIdx := none, relStrengthSector := none }] := by
  decide

/-- C5 (amended): relative strength is primary close divided by the
sector-index close on a same-timestamp match only (never forward-filled),
but the merge is a left join — every primary row is retained, an
unmatched one with an undefined index close and undefined relative
strength rather than being excluded. -/
theorem calculateSectorFeatures_left_join (primary index : List Bar) :
    (calculateSectorFeatures primary index).length = primary.length ∧
    (∀ i, (calculateSectorFeatures primary index).get? i =
      (primary.get? i).map (mkSectorRow index)) ∧
    (∀ b : Bar, (mkSectorRow index b).relStrengthSector =
      (index.find? (fun ib => ib.date == b.date)).map (fun ib => b.close / ib.close)) ∧
    (∀ b : Bar, index.find? (fun ib => ib.date == b.date) = none →
      (mkSectorRow index b).closeIdx = none ∧ (mkSectorRow index b).relStrengthSector = none) := by
  refine ⟨by simp [calculateSectorFeatures], fun i => by simp [calculateSectorFeatures],
    fun b => ?_, fun b h => ?_⟩
  · simp only [mkSectorRow, mkSectorClose, Option.map_map]
    rfl
  · simp [mkSectorRow, mkSectorClose, h]

/-- Witness for C5 (amended) on a concrete unmatched bar. -/
theorem calculateSectorFeatures_left_join_witness :
    List.find? (fun ib => ib.date == (1 : Nat))
      ([⟨2, 51, 49, 50, 500⟩] : List Bar) = none ∧
    (mkSectorRow [⟨2, 51, 49, 50, 500⟩] ⟨1, 101, 99, 100, 1000⟩).closeIdx = none ∧
    (mkSectorRow [⟨2, 51, 49, 50, 500⟩] ⟨1, 101, 99, 100, 1000⟩).relStrengthSector = none := by
  refine ⟨by decide, ?_⟩
  exact (calculateSectorFeatures_left_join [⟨1, 101, 99, 100, 1000⟩]
    [⟨2, 51, 49, 50, 500⟩]).2.2.2 ⟨1, 101, 99, 100, 1000⟩ (by decide)

/-- C6 counterexample: on a one-bar primary series (far inside the warm-up
of every rolling window) the storage preparation still emits a record —
with the 50-day SMA stored as null — instead of dropping the row. -/
theorem storage_emits_incomplete_window_row :
    (prepareFeaturesForStorage
      (pipelineRows [⟨0, 101, 99, 100, 1000⟩] [⟨0, 51, 49, 50, 500⟩] []) "HDFCBANK.NS").length
      = 1 ∧
    ((prepareFeaturesForStorage
      (pipelineRows [⟨0, 101, 99, 100, 1000⟩] [⟨0, 51, 49, 50, 500⟩] []) "HDFCBANK.NS").headD
      default).sma50 = none := by
  constructor
  · decide
  · decide

/-- C6 (amended): `prepare_features_for_storage` emits exactly one stored
record per pipeline row regardless of window completeness — warm-up rows
are retained with their undefined window-derived features (such as the
50-day SMA) stored as null, not dropped; the only always-defined regime
information is the explicit classification label. -/
theorem prepareFeaturesForStorage_keeps_all_rows (rows : List FeatureRecord) (symbol : String) :
    (prepareFeaturesForStorage rows symbol).length = rows.length ∧
    (∀ i, ((prepareFeaturesForStorage rows symbol).get? i).map (fun r => r.sma50) =
      (rows.get? i).map (fun r => r.sma50)) ∧
    (∀ i, ((prepareFeaturesForStorage rows symbol).get? i).map (fun r => r.date) =
      (rows.get? i).map (fun r => r.date)) ∧
    (∀ i, ((prepareFeaturesForStorage rows symbol).get? i).map (fun r => r.symbol) =
      (rows.get? i).map (fun _ => symbol)) := by
  refine ⟨by simp [prepareFeaturesForStorage], fun i => ?_, fun i => ?_, fun i => ?_⟩ <;>
    · rw [prepareFeaturesForStorage, List.get?_map, Option.map_map]
      rfl

/-- C8 counterexample: the interval built by `predict` is bitwise identical
for two different requested confidence levels (0.5 and 0.95) while its
half-width is the nonzero 0.196 — so the half-width cannot go through a
`z(confidence_level)` quantile, whose value differs at 0.5 and 0.95. -/
theorem predict_interval_ignores_confidence_level :
    predictWithIntervals [1, 3] (1 / 2) = predictWithIntervals [1, 3] (19 / 20) ∧
    ((predictWithIntervals [1, 3] (1 / 2)).headD default).confidenceUpper -
      ((predictWithIntervals [1, 3] (1 / 2)).headD default).predictedPrice = 49 / 250 := by
  have h1 : popVariance [1, 3] = 1 := by
    norm_num [popVariance, nMean]
  have hstd : npStd [1, 3] = 1 := by
    rw [npStd, h1]
    have h2 := Rat.sqrt_eq 1
    rw [mul_one, abs_one] at h2
    exact h2
  refine ⟨rfl, ?_⟩
  norm_num [predictWithIntervals, hstd]

/-- C8 (amended): the interval is symmetric about the point prediction
with half-width `1.96 × (0.1 × np.std(predictions))` — the z multiplier
is the constant 1.96 and the requested confidence level never enters the
computation, every confidence level producing the identical output. -/
theorem predictWithIntervals_fixed_z (preds : List ℚ) (c c' : ℚ) :
    predictWithIntervals preds c = predictWithIntervals preds c' ∧
    ∀ row ∈ predictWithIntervals preds c,
      row.confidenceUpper - row.predictedPrice = (196 / 100) * (npStd preds * (1 / 10)) ∧
      row.predictedPrice - row.confidenceLower = (196 / 100) * (npStd preds * (1 / 10)) := by
  refine ⟨rfl, ?_⟩
  intro row hrow
  simp only [predictWithIntervals, List.mem_map] at hrow
  obtain ⟨p, _, rfl⟩ := hrow
  constructor <;> ring

/-- Witness for C8 (amended) on a concrete two-prediction batch. -/
theorem predictWithIntervals_fixed_z_witness :
    predictWithIntervals [1, 3] (1 / 2) = predictWithIntervals [1, 3] (19 / 20) ∧
    ((predictWithIntervals [1, 3] (1 / 2)).headD default).confidenceUpper -
      ((predictWithIntervals [1, 3] (1 / 2)).headD default).predictedPrice =
      (196 / 100) * (npStd [1, 3] * (1 / 10)) := by
  have hmem : (predictWithIntervals [1, 3] (1 / 2)).headD default ∈
      predictWithIntervals [1, 3] (1 / 2) := by
    apply headD_default_mem
    intro h
    exact absurd (congrArg List.length h) (by decide)
  have h := predictWithIntervals_fixed_z [1, 3] (1 / 2) (19 / 20)
  exact ⟨h.1, (h.2 _ hmem).1⟩

/-- C9 counterexample: a registered advanced-model version that is not in
production before a training run IS in production after the run persists
its metadata — `save_metadata` writes the hard-coded `is_production:
True`, flipping the flag as a side effect of training completion. -/
theorem training_persist_flips_production_flag :
    (([⟨"advanced_xgboost", "v1.0", "XGBoost", 0, 0, 0, 0, "candidate", false⟩] :
        List ModelMetadata).map (fun e => e.isProduction)) = [false] ∧
    ((saveMetadataAdvanced
        [⟨"advanced_xgboost", "v1.0", "XGBoost", 0, 0, 0, 0, "candidate", false⟩]
        1 1 1 1).map (fun e => e.isProduction)) = [true] := by
  constructor
  · decide
  · decide

/-- C9 (amended): persisting training metadata always writes the
production flag as part of the upserted record — the advanced model's
`save_metadata` hard-codes `is_production = True` (and `status =
'active'`), the baseline's hard-codes `is_production = False` — so after
any training run every registry entry for the persisted
(model_name, model_version) carries that hard-coded flag, rather than the
flag being changed only by an explicit promote operation. -/
theorem saveMetadata_hardcodes_production_flag (reg : List ModelMetadata)
    (trainRmse trainMae valRmse valMae : ℚ) :
    (∀ e ∈ saveMetadataAdvanced reg trainRmse trainMae valRmse valMae,
      e.modelName = "advanced_xgboost" → e.modelVersion = "v1.0" →
      e.isProduction = true ∧ e.status = "active") ∧
    (∀ e ∈ saveMetadataBaseline reg trainRmse trainMae valRmse valMae,
      e.modelName = "baseline_arima" → e.modelVersion = "v1.0" →
      e.isProduction = false ∧ e.status = "active") := by
  constructor
  · intro e he hn hv
    unfold saveMetadataAdvanced upsertMetadata at he
    split at he
    · simp only [List.mem_map] at he
      obtain ⟨x, hx, hex⟩ := he
      by_cases hk : (x.modelName == (advancedModelMetadata trainRmse trainMae valRmse valMae).modelName &&
          x.modelVersion == (advancedModelMetadata trainRmse trainMae valRmse valMae).modelVersion) = true
      · rw [if_pos hk] at hex
        subst hex
        exact ⟨rfl, rfl⟩
      · rw [if_neg hk] at hex
        subst hex
        exact absurd (by simp [advancedModelMetadata, hn, hv]) hk
    · rcases List.mem_append.mp he with hin | hm
      · rename_i hany
        have : ∀ x ∈ reg, ¬ ((x.modelName == (advancedModelMetadata trainRmse trainMae valRmse valMae).modelName &&
            x.modelVersion == (advancedModelMetadata trainRmse trainMae valRmse valMae).modelVersion) = true) := by
          simpa [List.any_eq_true] using hany
        exact absurd (by simp [advancedModelMetadata, hn, hv]) (this e hin)
      · simp only [List.mem_singleton] at hm
        subst hm
        exact ⟨rfl, rfl⟩
  · intro e he hn hv
    unfold saveMetadataBaseline upsertMetadata at he
    split at he
    · simp only [List.mem_map] at he
      obtain ⟨x, hx, hex⟩ := he
      by_cases hk : (x.modelName == (baselineModelMetadata trainRmse trainMae valRmse valMae).modelName &&
          x.modelVersion == (baselineModelMetadata trainRmse trainMae valRmse valMae).modelVersion) = true
      · rw [if_pos hk] at hex
        subst hex
        exact ⟨rfl, rfl⟩
      · rw [if_neg hk] at hex
        subst hex
        exact absurd (by simp [baselineModelMetadata, hn, hv]) hk
    · rcases List.mem_append.mp he with hin | hm
      · rename_i hany
        have : ∀ x ∈ reg, ¬ ((x.modelName == (baselineModelMetadata trainRmse trainMae valRmse valMae).modelName &&
            x.modelVersion == (baselineModelMetadata trainRmse trainMae valRmse valMae).modelVersion) = true) := by
          simpa [List.any_eq_true] using hany
        exact absurd (by simp [baselineModelMetadata, hn, hv]) (this e hin)
      · simp only [List.mem_singleton] at hm
        subst hm
        exact ⟨rfl, rfl⟩

/-- Witness for C9 (amended) on a concrete registry. -/
theorem saveMetadata_hardcodes_production_flag_witness :
    (advancedModelMetadata 1 1 1 1) ∈ saveMetadataAdvanced [] 1 1 1 1 ∧
    (advancedModelMetadata 1 1 1 1).isProduction = true ∧
    (advancedModelMetadata 1 1 1 1).status = "active" := by
  have hmem : (advancedModelMetadata 1 1 1 1) ∈ saveMetadataAdvanced [] 1 1 1 1 := by decide
  have h := (saveMetadata_hardcodes_production_flag [] 1 1 1 1).1 _ hmem rfl rfl
  exact ⟨hmem, h.1, h.2⟩

/-- C10: within one `generate_predictions` run over N horizons, every
emitted record agrees with every other on all fields — predicted price,
confidence bounds, direction, probability, confidence level, identifiers
and issue timestamp — except the target timestamp, and the N target
timestamps are pairwise distinct. -/
theorem generatePredictions_horizon_invariance (model : List ℚ → ℚ) (latestScaled : List ℚ)
    (currentPrice : Option ℚ) (now forecastDays : Nat) :
    (∀ r1 ∈ generatePredictions model latestScaled currentPrice now forecastDays,
      ∀ r2 ∈ generatePredictions model latestScaled currentPrice now forecastDays,
        { r1 with targetTimestamp := 0 } = { r2 with targetTimestamp := 0 }) ∧
    ((generatePredictions model latestScaled currentPrice now forecastDays).map
      (fun r => r.targetTimestamp)).Nodup := by
  constructor
  · intro r1 h1 r2 h2
    simp only [generatePredictions, List.mem_map, List.mem_range] at h1 h2
    obtain ⟨d1, _, rfl⟩ := h1
    obtain ⟨d2, _, rfl⟩ := h2
    cases currentPrice <;> rfl
  · have hinj : Function.Injective (fun d : Nat => now + (d + 1)) := by
      intro a b h
      have h2 : now + (a + 1) = now + (b + 1) := h
      omega
    rw [generatePredictions, List.map_map]
    exact (List.nodup_range forecastDays).map (fun a b h => hinj h)

/-- Witness for C10 on a concrete three-horizon run. -/
theorem generatePredictions_horizon_invariance_witness :
    ({ (generatePredictions (fun _ => 5) [1] (some 4) 100 3).headD default with
        targetTimestamp := 0 } =
      { (generatePredictions (fun _ => 5) [1] (some 4) 100 3).getD 2 default with
        targetTimestamp := 0 }) ∧
    ((generatePredictions (fun _ => 5) [1] (some 4) 100 3).map
      (fun r => r.targetTimestamp)).Nodup := by
  have hlen : (generatePredictions (fun _ => 5) [1] (some 4) 100 3).length = 3 := by
    simp [generatePredictions]
  have hmem1 : (generatePredictions (fun _ => 5) [1] (some 4) 100 3).headD default ∈
      generatePredictions (fun _ => 5) [1] (some 4) 100 3 := by
    apply headD_default_mem
    intro h
    rw [h] at hlen
    exact absurd hlen (by decide)
  have hmem2 : (generatePredictions (fun _ => 5) [1] (some 4) 100 3).getD 2 default ∈
      generatePredictions (fun _ => 5) [1] (some 4) 100 3 := by
    rw [List.getD_eq_getElem?_getD]
    have h2 : (2 : Nat) < (generatePredictions (fun _ => 5) [1] (some 4) 100 3).length := by
      rw [hlen]
      decide
    rw [List.getElem?_eq_getElem h2]
    exact List.getElem_mem h2
  have h := generatePredictions_horizon_invariance (fun _ => 5) [1] (some 4) 100 3
  exact ⟨h.1 _ hmem1 _ hmem2, h.2⟩

/-- The dates of the inner join form a sublist of the feature dates. -/
theorem innerJoinPrices_dates_sublist (fs : List FeatRow) (ps : List (Nat × ℚ)) :
    ((innerJoinPrices fs ps).map (fun r => r.date)).Sublist (fs.map (fun f => f.date)) := by
  induction fs with
  | nil => simp [innerJoinPrices]
  | cons f fs ih =>
    rw [innerJoinPrices, List.filterMap_cons]
    cases h : ps.find? (fun p => p.1 == f.date) with
    | none =>
      exact ih.cons f.date
    | some p =>
      exact ih.cons₂ f.date

/-- Characterization of the rows retained by the target shift and
`dropna`: each comes from a position `i` of the sorted merged frame whose
features are all defined, with the target drawn from position
`i + horizon`. -/
theorem buildRows_mem (ms : List JoinedRow) (horizon : Nat) (row : TrainRow)
    (hrow : row ∈ buildRows ms horizon) :
    ∃ i r r2, ms.get? i = some r ∧ ms.get? (i + horizon) = some r2 ∧
      seqOption r.feats = some row.feats ∧
      row.featDate = r.date ∧ row.target = r2.close ∧ row.targetDate = r2.date := by
  simp only [buildRows, List.mem_filterMap, List.mem_range, Option.bind_eq_some,
    Option.map_eq_some'] at hrow
  obtain ⟨i, _, r, h1, r2, h2, fv, hfv, hrow2⟩ := hrow
  subst hrow2
  exact ⟨i, r, r2, h1, h2, hfv, rfl, rfl, rfl⟩

/-- C1: whenever `create_sequences` succeeds on feature rows with
pairwise-distinct dates and a horizon of at least one day, every retained
training row draws its target from the close at `horizon` positions after
its own position in the date-sorted merged series, and consequently its
target date is strictly greater than its feature date — no retained
training row has a target timestamp at or before its feature timestamp. -/
theorem createSequences_no_leakage (fs : List FeatRow) (ps : List (Nat × ℚ))
    (horizon : Nat) (rows : List TrainRow)
    (hh : 1 ≤ horizon)
    (hnd : (fs.map (fun f => f.date)).Nodup)
    (hok : createSequences fs ps horizon = .ok rows) :
    ∀ row ∈ rows,
      (∃ i r r2, (sortByDate (innerJoinPrices fs ps)).get? i = some r ∧
        (sortByDate (innerJoinPrices fs ps)).get? (i + horizon) = some r2 ∧
        row.featDate = r.date ∧ row.target = r2.close ∧ row.targetDate = r2.date) ∧
      row.featDate < row.targetDate := by
  have hrows : rows = buildRows (sortByDate (innerJoinPrices fs ps)) horizon := by
    rw [createSequences] at hok
    split at hok
    · cases hok
    · injection hok with h
      exact h.symm
  subst hrows
  have hperm : (sortByDate (innerJoinPrices fs ps)).Perm (innerJoinPrices fs ps) :=
    List.perm_insertionSort _ _
  have hndm : ((sortByDate (innerJoinPrices fs ps)).map (fun r => r.date)).Nodup := by
    have hjoin : ((innerJoinPrices fs ps).map (fun r => r.date)).Nodup :=
      (innerJoinPrices_dates_sublist fs ps).nodup hnd
    exact ((hperm.map (fun r => r.date)).nodup_iff).mpr hjoin
  have hsorted : List.Sorted dateLe (sortByDate (innerJoinPrices fs ps)) :=
    List.sorted_insertionSort dateLe _
  have hpne : List.Pairwise (fun a b : JoinedRow => a.date ≠ b.date)
      (sortByDate (innerJoinPrices fs ps)) := List.pairwise_map.mp hndm
  have hlt : List.Pairwise (fun a b : JoinedRow => a.date < b.date)
      (sortByDate (innerJoinPrices fs ps)) :=
    (hsorted.and hpne).imp (fun h => lt_of_le_of_ne h.1 h.2)
  intro row hrow
  obtain ⟨i, r, r2, h1, h2, _, he1, he2, he3⟩ :=
    buildRows_mem (sortByDate (innerJoinPrices fs ps)) horizon row hrow
  refine ⟨⟨i, r, r2, h1, h2, he1, he2, he3⟩, ?_⟩
  rw [he1, he3]
  obtain ⟨hi, hgi⟩ := List.get?_eq_some.mp h1
  obtain ⟨hi2, hgi2⟩ := List.get?_eq_some.mp h2
  have hfin : (⟨i, hi⟩ : Fin (sortByDate (innerJoinPrices fs ps)).length) < ⟨i + horizon, hi2⟩ :=
    Fin.mk_lt_mk.mpr (by omega)
  have := List.pairwise_iff_get.mp hlt ⟨i, hi⟩ ⟨i + horizon, hi2⟩ hfin
  rw [hgi, hgi2] at this
  exact this

/-- Witness for C1 on a concrete unsorted three-row series with horizon
one. -/
theorem createSequences_no_leakage_witness :
    (([⟨2, [some 1]⟩, ⟨1, [some 2]⟩, ⟨3, [none]⟩] : List FeatRow).map
      (fun f => f.date)).Nodup ∧
    createSequences [⟨2, [some 1]⟩, ⟨1, [some 2]⟩, ⟨3, [none]⟩]
      [(1, 10), (2, 20), (3, 30), (4, 40)] 1 =
      .ok [⟨1, [2], 20, 2⟩, ⟨2, [1], 30, 3⟩] ∧
    (⟨1, [2], 20, 2⟩ : TrainRow).featDate < (⟨1, [2], 20, 2⟩ : TrainRow).targetDate := by
  have hok : createSequences [⟨2, [some 1]⟩, ⟨1, [some 2]⟩, ⟨3, [none]⟩]
      [(1, 10), (2, 20), (3, 30), (4, 40)] 1 =
      .ok [⟨1, [2], 20, 2⟩, ⟨2, [1], 30, 3⟩] := by rfl
  refine ⟨by decide, hok, ?_⟩
  exact (createSequences_no_leakage _ _ 1 _ (by decide) (by decide) hok
    ⟨1, [2], 20, 2⟩ (by decide)).2

end HDFCStock
